import Mathlib

/-!
Verification of the Personal_Assistant repository against its
natural-language specification.

Each Python module relevant to the claims is shallowly embedded as Lean
definitions: pure logic becomes Lean functions, module-level mutable state
becomes explicit state passing, I/O results (HTTP replies, registry mtimes,
scan results, audio blocks) become function parameters, and raised
exceptions become explicit error values.  Machine floats for times and
scores are modelled with `ℚ`.
-/

set_option autoImplicit false

/-! ## llm_manager.py — unified Gemini + Ollama router -/

namespace LLMManager

/-- The configuration fields `get_llm_response` reads.  Python truthiness of
`Config.GEMINI_API_KEY` / `Config.OLLAMA_API_URL` is modelled by a presence
flag. -/
structure LLMConfig where
  LOCAL_ONLY : Bool
  geminiKeyPresent : Bool
  ollamaUrlPresent : Bool
  deriving DecidableEq

/-- Outcome of the router body: the dead `not providers` early return, a
non-empty reply from some provider, or the fall-through after the loop. -/
inductive Route where
  | noProvider
  | reply (r : String)
  | allFailed
  deriving DecidableEq

/-- The environment's answer when the router calls provider `p`:
`none` models an exception or a `None` reply, `some r` a returned string
(possibly empty, since Ollama can yield `""`). -/
def truthyReply : Option String → Bool
  | none => false
  | some r => !(r == "")

/-- Router outcome plus the ordered list of providers actually called
(the providers for which an `llm_<prov>_start` status event is emitted). -/
structure RouteResult where
  route : Route
  attempted : List String
  deriving DecidableEq

/-- The provider loop of `get_llm_response` (step 3): call each provider in
order; a truthy reply is returned at once, anything else moves on. -/
def tryProviders (calls : String → Option String) : List String → RouteResult
  | [] => ⟨.allFailed, []⟩
  | p :: rest =>
    if truthyReply (calls p) then ⟨.reply ((calls p).getD ""), [p]⟩
    else
      let r := tryProviders calls rest
      ⟨r.route, p :: r.attempted⟩

/-- Step 1 of `get_llm_response`: local-first order when `LOCAL_ONLY`. -/
def providerOrder (cfg : LLMConfig) : List String :=
  if cfg.LOCAL_ONLY then ["ollama", "gemini"] else ["gemini", "ollama"]

/-- Step 2 of `get_llm_response`: the two
`if provider == ... and not Config...: providers.remove(...)` guards — a
provider is removed only when it equals the `provider` argument and its
credential/endpoint is absent. -/
def routerOrder (cfg : LLMConfig) (provider : String) : List String :=
  let ps := providerOrder cfg
  let ps := if provider == "gemini" && !cfg.geminiKeyPresent then ps.erase "gemini" else ps
  if provider == "ollama" && !cfg.ollamaUrlPresent then ps.erase "ollama" else ps

/-- `get_llm_response(prompt, provider, status_callback)` with the HTTP
world abstracted into `calls`. -/
def get_llm_response (cfg : LLMConfig) (provider : String)
    (calls : String → Option String) : RouteResult :=
  let ps := routerOrder cfg provider
  if ps.isEmpty then ⟨.noProvider, []⟩
  else tryProviders calls ps

/-- The string `get_llm_response` actually returns for each outcome. -/
def renderRoute : Route → String
  | .noProvider => "No LLM provider available (check keys / local service)."
  | .reply r => r
  | .allFailed => "All LLM providers failed."

/-- Credential presence per provider name, as the spec describes it. -/
def credPresent (cfg : LLMConfig) (p : String) : Bool :=
  if p == "gemini" then cfg.geminiKeyPresent
  else if p == "ollama" then cfg.ollamaUrlPresent
  else true

/-- The trial order claimed by the spec: every provider whose required
credential/endpoint is absent is removed.  This follows the claim's words,
for comparison with `get_llm_response`. -/
def claimTrialOrder (cfg : LLMConfig) : List String :=
  (providerOrder cfg).filter (credPresent cfg)

/-- The trial order the code actually uses: a provider is dropped only when
it equals the `provider` argument and its credential is absent. -/
def codeTrialOrder (cfg : LLMConfig) (provider : String) : List String :=
  (providerOrder cfg).filter (fun p => !(p == provider && !credPresent cfg p))

end LLMManager

/-! ## llm_manager.py — session lifecycle (module-level globals) -/

namespace LLMSessions

/-- The five module-level globals of `llm_manager.py` relevant to session
lifecycle.  Sessions are identified by a `Nat`; `next_id` generates fresh
ones. -/
structure SessionState where
  ollama_session : Option Nat
  gemini_session : Option Nat
  ollama_init : Bool
  gemini_init : Bool
  next_id : Nat
  deriving DecidableEq

/-- `close_sessions()`: closes and clears both session objects.  Its
`global` statement names only the two sessions; the `_ollama_init` and
`_gemini_init` flags are never assigned. -/
def close_sessions (s : SessionState) : SessionState :=
  { s with ollama_session := none, gemini_session := none }

/-- `_get_or_create_gemini_session()`: creates a session only when the init
flag is unset, then returns whatever `_gemini_session` holds. -/
def get_or_create_gemini_session (s : SessionState) : SessionState × Option Nat :=
  if s.gemini_init then (s, s.gemini_session)
  else
    let s' := { s with gemini_session := some s.next_id, gemini_init := true,
                       next_id := s.next_id + 1 }
    (s', s'.gemini_session)

/-- `_get_or_create_ollama_session()`: same shape for Ollama. -/
def get_or_create_ollama_session (s : SessionState) : SessionState × Option Nat :=
  if s.ollama_init then (s, s.ollama_session)
  else
    let s' := { s with ollama_session := some s.next_id, ollama_init := true,
                       next_id := s.next_id + 1 }
    (s', s'.ollama_session)

end LLMSessions

/-! ## app_scanner.py — AppManager cache logic -/

namespace AppScanner

/-- Python `dict[str, str]`, as an association list whose first matching
entry is the binding (updates filter out overridden keys and append). -/
abbrev AppDict := List (String × String)

/-- Lookup in an `AppDict`. -/
def dictGet (d : AppDict) (k : String) : Option String :=
  (d.find? (fun kv => kv.1 == k)).map (fun kv => kv.2)

/-- `d1.update(d2)`: entries of `d2` win on key collision. -/
def dictUpdate (d1 d2 : AppDict) : AppDict :=
  d1.filter (fun kv => ((d2.find? (fun kv2 => kv2.1 == kv.1)).isNone : Bool)) ++ d2

/-- The inputs `_load_apps_with_cache` reads from the file system, the
registry, the scanners and the memory manager.  Timestamps are seconds
as `ℚ`; `sysMtime` is the value `_system_app_modified_time()` returns
(the newest mtime among the two Uninstall registry roots). -/
structure ScanEnv where
  cacheExists : Bool
  now : ℚ
  cacheMtime : ℚ
  sysMtime : ℚ
  cached : AppDict
  registryApps : AppDict
  startMenuApps : AppDict
  storeApps : AppDict
  memoryApps : AppDict

/-- What one call to `_load_apps_with_cache` does: the dict it returns,
whether it used the cache, whether the four scan sources ran, and the
cache file it wrote (contents and the `json.dump` indent), if any. -/
structure ScanResult where
  apps : AppDict
  usedCache : Bool
  scansRun : Bool
  written : Option (AppDict × Nat)
  deriving DecidableEq

/-- `self.cache_duration = timedelta(hours=24)`, in seconds. -/
def cache_duration : ℚ := 24 * 3600

/-- The full-scan merge: registry, then Start Menu, then store apps, then
memory-manager apps, later sources overriding earlier ones. -/
def fullScan (e : ScanEnv) : AppDict :=
  dictUpdate (dictUpdate (dictUpdate e.registryApps e.startMenuApps) e.storeApps) e.memoryApps

/-- The scan-and-save tail of `_load_apps_with_cache`: runs every scan
source, writes the merged dict with `indent=4`, and returns
`apps if apps else {}`. -/
def scanBranch (e : ScanEnv) : ScanResult :=
  let apps := fullScan e
  ⟨if apps.isEmpty then [] else apps, false, true, some (apps, 4)⟩

/-- `_load_apps_with_cache`, with the same nested early-return structure as
the source: cache file present, younger than `cache_duration`, and strictly
newer than the registry modification time ⇒ return the cached contents. -/
def load_apps_with_cache (e : ScanEnv) : ScanResult :=
  if e.cacheExists then
    if e.now - e.cacheMtime < cache_duration then
      if e.cacheMtime > e.sysMtime then
        ⟨e.cached, true, false, none⟩
      else scanBranch e
    else scanBranch e
  else scanBranch e

/-- The cache-hit condition, flattened. -/
def cacheHit (e : ScanEnv) : Bool :=
  e.cacheExists && decide (e.now - e.cacheMtime < cache_duration)
    && decide (e.cacheMtime > e.sysMtime)

end AppScanner

/-! ## suggestion_engine.py — SuggestionEngine.generate_suggestions -/

namespace SuggestionEngine

/-- The environment one call to `generate_suggestions` observes:
`datetime.now()` hour and weekday, the predictor's answer, the two
`get_frequent_commands` results (command names only), and the texts of
the reminders due within the next hour. -/
structure SuggestEnv where
  hour : Nat
  wday : Nat
  predicted : Option String
  frequent : List String
  frequent3 : List String
  reminders : List String

def predSug (p : String) : String :=
  "Based on your routine, should I run the command \x27" ++ p ++ "\x27?"

def freqSug (c : String) : String :=
  "You often ask me to \x27" ++ c ++ "\x27. Would you like to do that now?"

def morningSug : String := "Good morning! How about checking today\x27s weather or news?"

def morningSug2 : String := "Good morning! Open VS Code and Chrome?"

def lofiSug : String := "Time for a break – play some lo-fi?"

def wrapupSug (apps : List String) : String :=
  "Wrap-up? Close " ++ String.intercalate ", " apps ++ "?"

def headsUpSug (r : String) : String :=
  "Just a heads-up, you have a reminder coming up for: " ++ r ++ "."

/-- The `try` block of `generate_suggestions` (its rule-based step).  The
local `apps` is assigned only under `17 <= hour < 19`; on every other hour
the unconditional `if apps:` raises `UnboundLocalError`, which the
`except` swallows, so the suggestions appended before that line survive
and the reminder loop never runs.  Returns the appended suggestions and
whether the block ended in that exception. -/
def rule_suggestions (e : SuggestEnv) : List String × Bool :=
  let s1 : List String :=
    match e.frequent with
    | [] => []
    | c :: _ => if e.predicted ≠ some c then [freqSug c] else []
  let s2 := if 7 ≤ e.hour ∧ e.hour < 10 then [morningSug] else []
  let s3 := if 8 ≤ e.hour ∧ e.hour < 10 ∧ e.wday < 5 then [morningSug2] else []
  let s4 := if 13 ≤ e.hour ∧ e.hour < 14 then [lofiSug] else []
  if 17 ≤ e.hour ∧ e.hour < 19 then
    let apps := e.frequent3
    let s5 := if apps.isEmpty then [] else [wrapupSug apps]
    let s6 := e.reminders.map headsUpSug
    (s1 ++ s2 ++ s3 ++ s4 ++ s5 ++ s6, false)
  else
    (s1 ++ s2 ++ s3 ++ s4, true)

/-- `generate_suggestions`: the predictor suggestion first, then whatever
the rule block managed to append, capped at 3. -/
def generate_suggestions (e : SuggestEnv) : List String :=
  let pred := match e.predicted with
    | some p => [predSug p]
    | none => []
  (pred ++ (rule_suggestions e).1).take 3

end SuggestionEngine

/-! ## async_utils.py — async_retry decorator -/

namespace AsyncRetry

/-- One call of the wrapped coroutine either raises or returns a value. -/
inductive Attempt (E A : Type) where
  | err (e : E)
  | ok (a : A)
  deriving DecidableEq

/-- The retry loop from attempt number `attempt` with `remaining` further
attempts allowed after this one.  `f n` is the outcome of call number `n`
(1-based, as in `range(1, retries + 1)`), `jit n` the `random.uniform(0,1)`
sample added before the sleep of attempt `n`.  Returns the final outcome
(`err` models the `raise` on the last attempt) together with the list of
sleep durations, in order. -/
def retryGo {E A : Type} (backoff : ℚ) (jitter : Bool) (jit : Nat → ℚ)
    (f : Nat → Attempt E A) : Nat → Nat → Attempt E A × List ℚ
  | attempt, 0 => (f attempt, [])
  | attempt, r + 1 =>
    match f attempt with
    | .ok a => (.ok a, [])
    | .err _ =>
      let sleep := backoff ^ attempt + (if jitter then jit attempt else 0)
      let rest := retryGo backoff jitter jit f (attempt + 1) r
      (rest.1, sleep :: rest.2)

/-- `async_retry(retries, backoff, ..., jitter)` applied to a coroutine
whose behaviour is `f`, for `retries ≥ 1` (the loop body runs at least
once; the decorated functions use `retries=3` and `retries=2`). -/
def async_retry_run {E A : Type} (retries : Nat) (backoff : ℚ) (jitter : Bool)
    (jit : Nat → ℚ) (f : Nat → Attempt E A) : Attempt E A × List ℚ :=
  retryGo backoff jitter jit f 1 (retries - 1)

end AsyncRetry

/-! ## macros.py and macro_system.py — MacroSystem -/

namespace Macros

/-- Observable actions of `MacroSystem.run`: a `proc.execute(cmd)` call, an
`asyncio.sleep` of a given duration, or a `proc.speak(text)` call. -/
inductive MacroEvent where
  | exec (cmd : String)
  | sleep (seconds : ℚ)
  | speak (text : String)
  deriving DecidableEq

/-- The class-level `macros` table, identical in both source files. -/
def macroTable : List (String × List String) :=
  [ ("work mode", ["open vscode", "open chrome", "search in chrome github",
                   "in spotify play lofi hip hop"])
  , ("gaming mode", ["open steam", "open discord", "in discord mute", "close chrome"])
  , ("shutdown", ["close all apps", "save notepad", "goodbye"]) ]

/-- `self.macros.get(name)` / `name in self.macros`. -/
def macroLookup (name : String) : Option (List String) :=
  (macroTable.find? (fun kv => kv.1 == name)).map (fun kv => kv.2)

/-- `MacroSystem.run` of `macros.py`: for each sub-command of
`macros.get(name, [])`, execute it and sleep 0.3 s. -/
def run_v1 (name : String) : List MacroEvent :=
  ((macroLookup name).getD []).flatMap (fun c => [.exec c, .sleep (3 / 10)])

/-- `MacroSystem.run` of `macro_system.py`: unknown names return at once;
known macros are announced via `proc.speak`, then each sub-command is
executed followed by a 0.3 s sleep. -/
def run_v2 (name : String) : List MacroEvent :=
  match macroLookup name with
  | none => []
  | some cmds =>
    .speak ("Running " ++ name ++ " macro") :: cmds.flatMap (fun c => [.exec c, .sleep (3 / 10)])

/-- The trace the claim describes for `"work mode"`: pauses only *between*
consecutive sub-commands, none after the last.  Written from the claim's
words, for comparison with `run_v1`/`run_v2`. -/
def claimWorkModeTrace : List MacroEvent :=
  [ .exec "open vscode", .sleep (3 / 10)
  , .exec "open chrome", .sleep (3 / 10)
  , .exec "search in chrome github", .sleep (3 / 10)
  , .exec "in spotify play lofi hip hop" ]

end Macros

/-! ## wake_word.py — WakeWordDetector listen loop -/

namespace WakeWord

def THRESHOLD : ℚ := 65 / 100

def DEBOUNCE_S : ℚ := 3 / 2

def SILENCE_DB : ℚ := -60

/-- The loop state that survives between audio blocks: the `last_trigger`
local of `_listen_loop` and the `self._hotkey_pressed` flag. -/
structure WakeState where
  last_trigger : ℚ
  hotkey_pressed : Bool
  deriving DecidableEq

/-- One dequeued audio block, reduced to what the loop body reads from it:
`time.time()` at the check, the computed dB level of the rolling window,
and the model score. -/
structure AudioBlock where
  now : ℚ
  db : ℚ
  score : ℚ

/-- One iteration of `_listen_loop`'s body on a block: the silence gate
`continue`s below `SILENCE_DB`; otherwise `auto` needs the score at
threshold and the strict debounce `now - last_trigger > DEBOUNCE_S`, and
`manual` is the hot-key flag; a fire updates `last_trigger` and clears the
flag.  Returns the new state and whether `_fire_wake_event` ran. -/
def processBlock (s : WakeState) (b : AudioBlock) : WakeState × Bool :=
  if b.db < SILENCE_DB then (s, false)
  else
    let auto := decide (THRESHOLD ≤ b.score) && decide (DEBOUNCE_S < b.now - s.last_trigger)
    let manual := s.hotkey_pressed
    if auto || manual then (⟨b.now, false⟩, true)
    else (s, false)

/-- The listen loop over a sequence of blocks, collecting the fire flags. -/
def runBlocks (s : WakeState) : List AudioBlock → WakeState × List Bool
  | [] => (s, [])
  | b :: rest =>
    let step := processBlock s b
    let tail := runBlocks step.1 rest
    (tail.1, step.2 :: tail.2)

end WakeWord

/-! ## web_agent.py — WebAgent.navigate and the auto-cleanup loop -/

namespace WebAgent

/-- The `WebAgent` fields and module globals `navigate` and
`_auto_cleanup_loop` touch.  Pages are identified by `Nat`. -/
structure AgentState where
  active_tasks : Int
  is_init : Bool
  last_activity : Option ℚ
  deriving DecidableEq

/-- `WebAgent.navigate(url)`: `initOk` is `await self.initialize()`,
`resourcesOk` is `self._check_resources()`, `now` is `time.time()` inside
the `try`, and `pageResult` is the page `goto` produces (`none` models the
exception path).  The increment of `active_tasks` sits inside the `try`
whose `finally` decrements it, so it is undone on success and failure
alike. -/
def navigate (st : AgentState) (initOk resourcesOk : Bool) (now : ℚ)
    (pageResult : Option Nat) : AgentState × Option Nat :=
  if !initOk then (st, none)
  else
    let st0 := { st with is_init := true }
    if !resourcesOk then (st0, none)
    else
      let st1 := { st0 with active_tasks := st0.active_tasks + 1, last_activity := some now }
      ({ st1 with active_tasks := st1.active_tasks - 1 }, pageResult)

/-- The close decision of one `_auto_cleanup_loop` wake-up at time `nowT`:
`_last_activity` set and agent initialised, idle time beyond
`auto_close_timeout`, and zero active tasks. -/
def shouldAutoClose (st : AgentState) (nowT timeout : ℚ) : Bool :=
  match st.last_activity with
  | none => false
  | some la => st.is_init && decide (nowT - la > timeout) && (st.active_tasks == 0)

end WebAgent

/-! ## Theorems -/

section RouterTheorems

open LLMManager

/-- Helper: the order actually tried equals the single-provider filter, and
is never empty (at most one of the two entries can be removed). -/
theorem routerOrder_spec (cfg : LLMConfig) (provider : String) :
    routerOrder cfg provider = codeTrialOrder cfg provider ∧
    routerOrder cfg provider ≠ [] := by
  obtain ⟨lo, gk, ou⟩ := cfg
  by_cases hg : provider = "gemini"
  · subst hg; revert lo gk ou; decide
  · by_cases ho : provider = "ollama"
    · subst ho; revert lo gk ou; decide
    · have hg' : (provider == "gemini") = false := by
        simp [beq_iff_eq]; exact hg
      have ho' : (provider == "ollama") = false := by
        simp [beq_iff_eq]; exact ho
      have hg'' : ("gemini" == provider) = false := by
        simp [beq_iff_eq]; exact fun h => hg h.symm
      have ho'' : ("ollama" == provider) = false := by
        simp [beq_iff_eq]; exact fun h => ho h.symm
      cases lo <;>
        simp [routerOrder, codeTrialOrder, providerOrder, credPresent,
              hg', ho', hg'', ho'', List.filter]

/-- Helper: the provider loop never produces the `noProvider` outcome. -/
theorem tryProviders_route_ne_noProvider (calls : String → Option String) :
    ∀ l : List String, (tryProviders calls l).route ≠ Route.noProvider := by
  intro l
  induction l with
  | nil => simp [tryProviders]
  | cons p rest ih =>
    by_cases h : truthyReply (calls p) = true
    · simp [tryProviders, h]
    · simp only [Bool.not_eq_true] at h
      simp [tryProviders, h, ih]

/-- Helper: when no provider ever yields a truthy reply, the loop visits
the whole order and falls through to the `allFailed` outcome. -/
theorem tryProviders_all_fail (calls : String → Option String)
    (hfail : ∀ p, truthyReply (calls p) = false) :
    ∀ l : List String, tryProviders calls l = ⟨Route.allFailed, l⟩ := by
  intro l
  induction l with
  | nil => rfl
  | cons p rest ih => simp [tryProviders, hfail p, ih]

end RouterTheorems

/-- C1 counterexample: with `LOCAL_ONLY` false, the Gemini key absent and
the Ollama endpoint absent (and the default `provider="gemini"` argument),
the claim's filtered trial order is empty, so the claim requires the fixed
"No LLM provider available (check keys / local service)." string with no
provider called; the code instead still calls `"ollama"` and, when it
yields nothing, returns "All LLM providers failed.". -/
theorem c1_router_counterexample :
    LLMManager.claimTrialOrder ⟨false, false, false⟩ = [] ∧
    LLMManager.get_llm_response ⟨false, false, false⟩ "gemini" (fun _ => none)
      = ⟨LLMManager.Route.allFailed, ["ollama"]⟩ ∧
    LLMManager.renderRoute
        (LLMManager.get_llm_response ⟨false, false, false⟩ "gemini" (fun _ => none)).route
      = "All LLM providers failed." := by
  refine ⟨rfl, rfl, rfl⟩

/-- C1 (amended): `get_llm_response` starts from the order
`["ollama","gemini"]` when `LOCAL_ONLY` and `["gemini","ollama"]`
otherwise, but removes a provider only when it equals the `provider`
argument and its credential/endpoint is absent; the resulting trial order
is never empty, so the "No LLM provider available" string is never
produced; and when every provider in that order yields no non-empty reply,
the whole order is tried and the fixed "All LLM providers failed." string
is returned. -/
theorem c1_router_amended (cfg : LLMManager.LLMConfig) (provider : String)
    (calls : String → Option String) :
    LLMManager.routerOrder cfg provider = LLMManager.codeTrialOrder cfg provider ∧
    LLMManager.routerOrder cfg provider ≠ [] ∧
    (LLMManager.get_llm_response cfg provider calls).route ≠ LLMManager.Route.noProvider ∧
    ((∀ p, LLMManager.truthyReply (calls p) = false) →
      (LLMManager.get_llm_response cfg provider calls).attempted
          = LLMManager.codeTrialOrder cfg provider ∧
      LLMManager.renderRoute (LLMManager.get_llm_response cfg provider calls).route
          = "All LLM providers failed.") := by
  obtain ⟨heq, hne⟩ := routerOrder_spec cfg provider
  have hempty : (LLMManager.routerOrder cfg provider).isEmpty = false := by
    cases h : LLMManager.routerOrder cfg provider with
    | nil => exact absurd h hne
    | cons a l => rfl
  refine ⟨heq, hne, ?_, ?_⟩
  · unfold LLMManager.get_llm_response
    simp only [hempty, Bool.false_eq_true, if_false]
    exact tryProviders_route_ne_noProvider calls _
  · intro hfail
    unfold LLMManager.get_llm_response
    simp only [hempty, Bool.false_eq_true, if_false,
               tryProviders_all_fail calls hfail]
    exact ⟨heq, rfl⟩

/-- C1 witness: the amended theorem applied at a concrete configuration
(`LOCAL_ONLY` false, both credentials present) where every provider call
fails. -/
theorem c1_router_amended_witness :
    LLMManager.renderRoute
        (LLMManager.get_llm_response ⟨false, true, true⟩ "gemini" (fun _ => none)).route
      = "All LLM providers failed." :=
  ((c1_router_amended ⟨false, true, true⟩ "gemini" (fun _ => none)).2.2.2
    (fun _ => rfl)).2

/-- C9: the code contradicts the claim.  After both sessions have been
created and `close_sessions()` runs, the two init flags are still set
(`close_sessions` never assigns them), so the session getters that
`get_gemini_response` / `get_ollama_response` call return `none` instead
of creating a fresh session. -/
theorem c9_close_sessions_eval :
    (LLMSessions.close_sessions ⟨some 0, some 1, true, true, 2⟩).ollama_init = true ∧
    (LLMSessions.close_sessions ⟨some 0, some 1, true, true, 2⟩).gemini_init = true ∧
    (LLMSessions.get_or_create_gemini_session
        (LLMSessions.close_sessions ⟨some 0, some 1, true, true, 2⟩)).2 = none ∧
    (LLMSessions.get_or_create_ollama_session
        (LLMSessions.close_sessions ⟨some 0, some 1, true, true, 2⟩)).2 = none := by
  refine ⟨rfl, rfl, rfl, rfl⟩

section AppScannerTheorems

open AppScanner

/-- Helper: lookup distributes over list append, first hit wins. -/
theorem dictGet_append (l1 l2 : AppDict) (k : String) :
    dictGet (l1 ++ l2) k = (dictGet l1 k).or (dictGet l2 k) := by
  unfold dictGet
  rw [List.find?_append]
  cases l1.find? (fun kv => kv.1 == k) <;> simp

/-- Helper: when `d2` binds `k`, the kept part of `d1` in `d1.update(d2)`
has no `k` entry. -/
theorem dictGet_filter_of_some (d1 d2 : AppDict) (k : String) (e : String × String)
    (h : d2.find? (fun x => x.1 == k) = some e) :
    dictGet (d1.filter (fun kv => ((d2.find? (fun kv2 => kv2.1 == kv.1)).isNone : Bool))) k
      = none := by
  unfold dictGet
  rw [Option.map_eq_none']
  rw [List.find?_eq_none]
  intro kv hkv hbeq
  rcases List.mem_filter.mp hkv with ⟨-, hpred⟩
  have hk : kv.1 = k := by exact beq_iff_eq.mp hbeq
  rw [hk, h] at hpred
  simp at hpred

/-- Helper: when `d2` does not bind `k`, filtering `d1` by "not overridden
by `d2`" leaves the `k` lookup unchanged. -/
theorem dictGet_filter_of_none (d1 d2 : AppDict) (k : String)
    (h : d2.find? (fun x => x.1 == k) = none) :
    dictGet (d1.filter (fun kv => ((d2.find? (fun kv2 => kv2.1 == kv.1)).isNone : Bool))) k
      = dictGet d1 k := by
  induction d1 with
  | nil => rfl
  | cons kv d1 ih =>
    by_cases hk : (kv.1 == k) = true
    · have hk' : kv.1 = k := beq_iff_eq.mp hk
      have hpred : ((d2.find? (fun kv2 => kv2.1 == kv.1)).isNone : Bool) = true := by
        rw [hk', h]; rfl
      simp [List.filter_cons, hpred, dictGet, List.find?_cons, hk]
    · simp only [Bool.not_eq_true] at hk
      by_cases hpred : ((d2.find? (fun kv2 => kv2.1 == kv.1)).isNone : Bool) = true
      · simpa [List.filter_cons, hpred, dictGet, List.find?_cons, hk] using ih
      · simp only [Bool.not_eq_true] at hpred
        simpa [List.filter_cons, hpred, dictGet, List.find?_cons, hk] using ih

/-- Helper: lookup after `d1.update(d2)` prefers `d2`'s binding. -/
theorem dictGet_dictUpdate (d1 d2 : AppDict) (k : String) :
    dictGet (dictUpdate d1 d2) k = (dictGet d2 k).or (dictGet d1 k) := by
  unfold dictUpdate
  rw [dictGet_append]
  cases h : d2.find? (fun x => x.1 == k) with
  | none =>
    rw [dictGet_filter_of_none d1 d2 k h]
    have h2 : dictGet d2 k = none := by unfold dictGet; rw [h]; rfl
    rw [h2, Option.or_none, Option.none_or]
  | some e =>
    rw [dictGet_filter_of_some d1 d2 k e h]
    have h2 : dictGet d2 k = some e.2 := by unfold dictGet; rw [h]; rfl
    rw [h2, Option.none_or, Option.or_some]

end AppScannerTheorems

/-- C2: `_load_apps_with_cache` returns the cached contents without running
any scan source exactly when the cache file exists, is younger than 24
hours, and is strictly newer than the newest registry-uninstall-root
mtime; in every other case it runs the full scan (registry, Start Menu,
store apps, memory-manager apps, later sources winning on key collision)
and rewrites the cache file with the merged result at indent 4. -/
theorem c2_load_apps_with_cache (e : AppScanner.ScanEnv) :
    (AppScanner.load_apps_with_cache e).usedCache = AppScanner.cacheHit e ∧
    (AppScanner.load_apps_with_cache e).scansRun = !AppScanner.cacheHit e ∧
    (AppScanner.load_apps_with_cache e).apps
      = (if AppScanner.cacheHit e then e.cached else AppScanner.fullScan e) ∧
    (AppScanner.load_apps_with_cache e).written
      = (if AppScanner.cacheHit e then none else some (AppScanner.fullScan e, 4)) ∧
    (∀ k, AppScanner.dictGet (AppScanner.fullScan e) k
      = ((AppScanner.dictGet e.memoryApps k).or
          ((AppScanner.dictGet e.storeApps k).or
            ((AppScanner.dictGet e.startMenuApps k).or
              (AppScanner.dictGet e.registryApps k))))) := by
  have happs : ∀ l : AppScanner.AppDict, (if l.isEmpty then ([] : AppScanner.AppDict) else l) = l := by
    intro l; cases l <;> rfl
  have hov : ∀ k, AppScanner.dictGet (AppScanner.fullScan e) k
      = ((AppScanner.dictGet e.memoryApps k).or
          ((AppScanner.dictGet e.storeApps k).or
            ((AppScanner.dictGet e.startMenuApps k).or
              (AppScanner.dictGet e.registryApps k)))) := by
    intro k
    unfold AppScanner.fullScan
    rw [dictGet_dictUpdate, dictGet_dictUpdate, dictGet_dictUpdate]
  have hmain : AppScanner.load_apps_with_cache e
      = (if AppScanner.cacheHit e
          then (⟨e.cached, true, false, none⟩ : AppScanner.ScanResult)
          else ⟨AppScanner.fullScan e, false, true, some (AppScanner.fullScan e, 4)⟩) := by
    unfold AppScanner.load_apps_with_cache AppScanner.cacheHit AppScanner.scanBranch
    by_cases h1 : e.cacheExists = true <;>
      by_cases h2 : e.now - e.cacheMtime < AppScanner.cache_duration <;>
        by_cases h3 : e.cacheMtime > e.sysMtime <;>
          simp [h1, h2, h3, happs]
  refine ⟨?_, ?_, ?_, ?_, hov⟩ <;> rw [hmain] <;>
    by_cases h : AppScanner.cacheHit e = true <;> simp [h]

/-- C3: the code contradicts the claim.  At hour 11 (any hour outside
17–19) with a reminder due within the next hour, the rule block dies on
the unconditional `if apps:` (`apps` is only assigned under
`17 <= hour < 19`), the `except` swallows the `UnboundLocalError`, and no
"heads-up" suggestion is produced; at hour 17 the same reminder does yield
one, showing the hour-dependence the claim denies. -/
theorem c3_reminder_eval :
    SuggestionEngine.generate_suggestions ⟨11, 2, none, [], [], ["team meeting"]⟩ = [] ∧
    (SuggestionEngine.rule_suggestions ⟨11, 2, none, [], [], ["team meeting"]⟩).2 = true ∧
    SuggestionEngine.generate_suggestions ⟨17, 2, none, [], [], ["team meeting"]⟩
      = [SuggestionEngine.headsUpSug "team meeting"] := by
  refine ⟨rfl, rfl, rfl⟩

/-- C4: `generate_suggestions` never returns more than 3 suggestions, and
whenever the predictor produced a command for the current hour/weekday,
the suggestion built from it is the first element of the returned list. -/
theorem c4_suggestion_cap (e : SuggestionEngine.SuggestEnv) :
    (SuggestionEngine.generate_suggestions e).length ≤ 3 ∧
    (∀ p, e.predicted = some p →
      (SuggestionEngine.generate_suggestions e).head?
        = some (SuggestionEngine.predSug p)) := by
  constructor
  · unfold SuggestionEngine.generate_suggestions
    exact List.length_take_le 3 _
  · intro p hp
    unfold SuggestionEngine.generate_suggestions
    rw [hp]
    simp

/-- C4 witness: the cap-and-first-position theorem applied at an
environment whose predictor suggests "open chrome". -/
theorem c4_suggestion_cap_witness :
    (SuggestionEngine.generate_suggestions ⟨9, 1, some "open chrome", [], [], []⟩).head?
      = some (SuggestionEngine.predSug "open chrome") :=
  (c4_suggestion_cap ⟨9, 1, some "open chrome", [], [], []⟩).2 "open chrome" rfl

/-- C5: with `retries=3`, a coroutine that raises on its first two calls
and succeeds on the third makes the wrapper return the third call's value
after exactly two sleeps of `backoff^1 + jitter₁` and `backoff^2 + jitter₂`
seconds; one that raises on all three calls makes the wrapper re-raise the
third call's exception after the same two sleeps. -/
theorem c5_async_retry {E A : Type} (b : ℚ) (jit : Nat → ℚ)
    (f g : Nat → AsyncRetry.Attempt E A) (e1 e2 : E) (a : A) (d1 d2 d3 : E)
    (hf1 : f 1 = .err e1) (hf2 : f 2 = .err e2) (hf3 : f 3 = .ok a)
    (hg1 : g 1 = .err d1) (hg2 : g 2 = .err d2) (hg3 : g 3 = .err d3) :
    AsyncRetry.async_retry_run 3 b true jit f
      = (.ok a, [b ^ 1 + jit 1, b ^ 2 + jit 2]) ∧
    AsyncRetry.async_retry_run 3 b true jit g
      = (.err d3, [b ^ 1 + jit 1, b ^ 2 + jit 2]) := by
  unfold AsyncRetry.async_retry_run
  constructor <;> simp [AsyncRetry.retryGo, hf1, hf2, hf3, hg1, hg2, hg3]

/-- C5 witness: the retry theorem applied to concrete coroutines — one
failing twice then returning 7, one failing three times with error 5 —
with `backoff = 2` and zero jitter samples. -/
theorem c5_async_retry_witness :
    AsyncRetry.async_retry_run 3 (2 : ℚ) true (fun _ => 0)
        (fun n => if n < 3 then AsyncRetry.Attempt.err 0 else AsyncRetry.Attempt.ok 7)
      = (AsyncRetry.Attempt.ok 7, [(2 : ℚ) ^ 1 + 0, (2 : ℚ) ^ 2 + 0]) ∧
    AsyncRetry.async_retry_run 3 (2 : ℚ) true (fun _ => 0)
        (fun _ => (AsyncRetry.Attempt.err 5 : AsyncRetry.Attempt Nat Nat))
      = (AsyncRetry.Attempt.err 5, [(2 : ℚ) ^ 1 + 0, (2 : ℚ) ^ 2 + 0]) :=
  c5_async_retry 2 (fun _ => 0)
    (fun n => if n < 3 then AsyncRetry.Attempt.err 0 else AsyncRetry.Attempt.ok 7)
    (fun _ => AsyncRetry.Attempt.err 5) 0 0 7 5 5 5 rfl rfl rfl rfl rfl rfl

/-- C6 counterexample: `run("work mode")` does not produce the claimed
trace with pauses only *between* consecutive sub-commands — the loop also
sleeps 0.3 s after the last sub-command, so the trace ends in a pause. -/
theorem c6_macro_counterexample :
    Macros.run_v1 "work mode" ≠ Macros.claimWorkModeTrace ∧
    (Macros.run_v1 "work mode").getLast? = some (Macros.MacroEvent.sleep (3 / 10)) := by
  refine ⟨?_, rfl⟩
  intro h
  have h8 : (Macros.run_v1 "work mode").length = 8 := rfl
  rw [h] at h8
  have h7 : Macros.claimWorkModeTrace.length = 7 := rfl
  rw [h7] at h8
  exact absurd h8 (by norm_num)

/-- C6 (amended): `run("work mode")` executes exactly the four documented
sub-commands in order with a 0.3 s pause after each one, including the
last; the `macro_system.py` variant additionally announces the macro via
`speak` before the same steps; and any name outside the macro table
executes zero sub-commands and performs no other action in either
variant. -/
theorem c6_macro_run (name : String) (h : Macros.macroLookup name = none) :
    Macros.run_v1 "work mode"
      = [ .exec "open vscode", .sleep (3 / 10)
        , .exec "open chrome", .sleep (3 / 10)
        , .exec "search in chrome github", .sleep (3 / 10)
        , .exec "in spotify play lofi hip hop", .sleep (3 / 10) ] ∧
    Macros.run_v2 "work mode"
      = Macros.MacroEvent.speak "Running work mode macro" :: Macros.run_v1 "work mode" ∧
    Macros.run_v1 name = [] ∧ Macros.run_v2 name = [] := by
  refine ⟨rfl, rfl, ?_, ?_⟩
  · unfold Macros.run_v1
    rw [h]
    rfl
  · unfold Macros.run_v2
    rw [h]

/-- C6 witness: the amended theorem applied at the unknown macro name
"focus mode". -/
theorem c6_macro_run_witness :
    Macros.run_v1 "focus mode" = [] ∧ Macros.run_v2 "focus mode" = [] :=
  ⟨(c6_macro_run "focus mode" rfl).2.2.1, (c6_macro_run "focus mode" rfl).2.2.2⟩

/-- C7: starting from a fire at time `t` with the hot-key flag clear, the
keyword score cannot fire again on any block whose time is within the
1.5 s debounce window of `t`, however high the score — the guard
`now - last_trigger > DEBOUNCE_S` is strict and no fire means
`last_trigger` stays `t`. -/
theorem c7_debounce (t : ℚ) (blocks : List WakeWord.AudioBlock)
    (h : ∀ b ∈ blocks, b.now - t ≤ WakeWord.DEBOUNCE_S) :
    (WakeWord.runBlocks ⟨t, false⟩ blocks).2
      = List.replicate blocks.length false := by
  induction blocks with
  | nil => rfl
  | cons b rest ih =>
    have hb := h b (List.mem_cons_self b rest)
    have hstep : WakeWord.processBlock ⟨t, false⟩ b = (⟨t, false⟩, false) := by
      unfold WakeWord.processBlock
      by_cases hdb : b.db < WakeWord.SILENCE_DB
      · simp [hdb]
      · have hauto : decide (WakeWord.DEBOUNCE_S < b.now - t) = false := by
          simp only [decide_eq_false_iff_not, not_lt]
          exact hb
        simp [hdb, hauto]
    simp only [WakeWord.runBlocks, hstep]
    rw [ih (fun b' hb' => h b' (List.mem_cons_of_mem b hb'))]
    rw [List.length_cons, List.replicate_succ]

/-- C7 witness: the debounce theorem applied to a single loud,
high-scoring block one second after a fire at time 0. -/
theorem c7_debounce_witness :
    (WakeWord.runBlocks ⟨0, false⟩ [⟨1, 0, 1⟩]).2 = List.replicate 1 false :=
  c7_debounce 0 [⟨1, 0, 1⟩] (by
    intro b hb
    simp only [List.mem_singleton] at hb
    subst hb
    norm_num [WakeWord.DEBOUNCE_S])

/-- C8 counterexample: with the hot-key flag set, a block below the
silence gate (−70 dB) is processed without firing — the `continue` on
quiet audio runs before the `manual` check — and the flag stays pending. -/
theorem c8_hotkey_counterexample :
    (WakeWord.processBlock ⟨0, true⟩ ⟨10, -70, 1⟩).2 = false ∧
    (WakeWord.processBlock ⟨0, true⟩ ⟨10, -70, 1⟩).1.hotkey_pressed = true := by
  refine ⟨?_, ?_⟩ <;> norm_num [WakeWord.processBlock, WakeWord.SILENCE_DB]

/-- C8 (amended): once the hot-key flag is set, the detector fires on the
next audio block that passes the silence gate, regardless of its keyword
score and of the debounce state, and the fire clears the flag and resets
the debounce clock. -/
theorem c8_hotkey_fires (s : WakeWord.WakeState) (b : WakeWord.AudioBlock)
    (hk : s.hotkey_pressed = true) (hdb : WakeWord.SILENCE_DB ≤ b.db) :
    (WakeWord.processBlock s b).2 = true ∧
    (WakeWord.processBlock s b).1 = ⟨b.now, false⟩ := by
  unfold WakeWord.processBlock
  have hq : ¬ b.db < WakeWord.SILENCE_DB := not_lt.mpr hdb
  simp [hq, hk]

/-- C8 witness: the amended theorem applied to a pending hot-key and a
barely-audible block with score 0, 0.1 s after the previous fire. -/
theorem c8_hotkey_fires_witness :
    (WakeWord.processBlock ⟨0, true⟩ ⟨1 / 10, 0, 0⟩).2 = true :=
  (c8_hotkey_fires ⟨0, true⟩ ⟨1 / 10, 0, 0⟩ rfl
    (by norm_num [WakeWord.SILENCE_DB])).1

/-- C10: `navigate` leaves `active_tasks` exactly as it found it on every
path — the increment sits in a `try` whose `finally` decrements — so a
page it returns is not accounted as an active task, and once the idle
timeout has elapsed the cleanup loop's close condition holds even though
the returned page may still be in use. -/
theorem c10_navigate_active_tasks (st : WebAgent.AgentState)
    (initOk resOk : Bool) (now : ℚ) (page : Option Nat) :
    ((WebAgent.navigate st initOk resOk now page).1).active_tasks = st.active_tasks ∧
    (WebAgent.navigate st true true now page).2 = page ∧
    (st.active_tasks = 0 → ∀ nowT timeout : ℚ, nowT - now > timeout →
      WebAgent.shouldAutoClose ((WebAgent.navigate st true true now page).1) nowT timeout
        = true) := by
  refine ⟨?_, rfl, ?_⟩
  · unfold WebAgent.navigate
    cases initOk <;> cases resOk <;> simp
  · intro h0 nowT timeout hidle
    unfold WebAgent.navigate WebAgent.shouldAutoClose
    simp [h0, hidle]

/-- C10 witness: the preservation theorem applied to an idle agent with
zero active tasks, a navigation at time 0 returning page 5, and a cleanup
check at time 100 with a 1-second timeout. -/
theorem c10_navigate_active_tasks_witness :
    WebAgent.shouldAutoClose
        ((WebAgent.navigate ⟨0, false, none⟩ true true 0 (some 5)).1) 100 1 = true :=
  (c10_navigate_active_tasks ⟨0, false, none⟩ true true 0 (some 5)).2.2 rfl 100 1
    (by norm_num)
